import Mathlib

/-!
Shallow embedding of the honeypot repository's per-session pipeline:
session model (models/session.py), configuration (config.py), scam
detector (services/scam_detector.py), intelligence extractor
(services/intelligence_extractor.py), decision engine
(services/decision_engine.py), session manager
(services/session_manager.py) and GUVI callback dispatcher
(services/guvi_callback.py).

Python strings are modelled as Lean `String`/`List Char`; machine side
effects (network calls, sleeps, wall-clock timestamps) are passed in or
returned explicitly.  Python `set`s are modelled as deduplicated lists
and compared by membership where the spec compares sets.
-/

namespace Honeypot

/-- ASCII lowering, the effect of Python `str.lower()` on the ASCII texts
this pipeline handles. -/
def pyLower (cs : List Char) : List Char := cs.map Char.toLower

/-- Python `\s` whitespace class (ASCII part). -/
def pyIsSpace (c : Char) : Bool :=
  c = ' ' || c = '\t' || c = '\n' || c = '\r' || c = Char.ofNat 11 || c = Char.ofNat 12

/-- Python regex word character (`\w`): letters, digits, underscore. -/
def isWordChar (c : Char) : Bool :=
  c.isAlpha || c.isDigit || c = '_'

/-- The double-quote character. -/
def dquoteChar : Char := Char.ofNat 34

/-- The single-quote character. -/
def squoteChar : Char := Char.ofNat 39

/-- Tests whether `needle` occurs at the start of `hay`. -/
def prefixAt : List Char → List Char → Bool
  | [], _ => true
  | _ :: _, [] => false
  | a :: as, b :: bs => a = b && prefixAt as bs

/-- Python `needle in hay` substring test. -/
def subMatch (needle : List Char) : List Char → Bool
  | [] => prefixAt needle []
  | c :: rest => prefixAt needle (c :: rest) || subMatch needle rest

/-- Embeds `re.search` semantics: some suffix of the text satisfies the anchored matcher. -/
def searchSuffixes (p : List Char → Bool) : List Char → Bool
  | [] => p []
  | c :: rest => p (c :: rest) || searchSuffixes p rest

/-- Drop a literal from the front of the text, or fail. -/
def dropLit : List Char → List Char → Option (List Char)
  | [], cs => some cs
  | _ :: _, [] => none
  | a :: as, b :: bs => if a = b then dropLit as bs else none

/-- Consume a maximal run of characters satisfying `p`, returning the run
and the rest. -/
def takeRun (p : Char → Bool) : List Char → List Char × List Char
  | [] => ([], [])
  | c :: rest =>
    if p c then
      let (run, r) := takeRun p rest
      (c :: run, r)
    else ([], c :: rest)

/-- Add a value to a Python-set-as-list: no duplicates, insertion order. -/
def setAdd (acc : List String) (x : String) : List String :=
  if x ∈ acc then acc else acc ++ [x]

/-- Python `set(a) | set(b)` realised as a deduplicated list. -/
def setUnion (a b : List String) : List String :=
  (a ++ b).foldl setAdd []

/-- Two lists denote the same set of strings. -/
def eqAsSets (a b : List String) : Prop := ∀ x : String, x ∈ a ↔ x ∈ b

/-! ## Data model (`models/session.py`) -/

/-- Extracted scam intelligence (`Intelligence` in models/session.py);
Python keeps the five collections as lists and deduplicates on merge. -/
structure Intelligence where
  bankAccounts : List String := []
  upiIds : List String := []
  phoneNumbers : List String := []
  phishingLinks : List String := []
  suspiciousKeywords : List String := []
deriving DecidableEq

/-- A single conversation turn (`ConversationTurn`). -/
structure ConversationTurn where
  role : String := ""
  content : String := ""
  timestamp : String := ""
deriving DecidableEq

/-- Complete session state (`SessionState`).  The Python constructor
fills `intelligence` and the two timestamps; the wall clock is passed in
explicitly here. -/
structure SessionState where
  sessionId : String := ""
  scamDetected : Bool := false
  agentActivated : Bool := false
  totalMessages : Nat := 0
  intelligence : Intelligence := {}
  conversationHistory : List ConversationTurn := []
  agentNotes : String := ""
  conversationComplete : Bool := false
  callbackSent : Bool := false
  createdAt : String := ""
  updatedAt : String := ""
deriving DecidableEq

/-- Environment-derived settings (`config.py`). -/
structure Settings where
  API_KEY : String := "default_key_change_me"
  GROQ_API_KEY : String := ""
  GUVI_CALLBACK_URL : String := "https://hackathon.guvi.in/api/updateHoneyPotFinalResult"
  HEURISTIC_THRESHOLD : Nat := 3
  MAX_MESSAGES_BEFORE_COMPLETE : Nat := 15
  CALLBACK_TIMEOUT_SECONDS : Nat := 5
deriving DecidableEq

/-- The settings produced by `config.py` when no environment overrides
are present. -/
def defaultSettings : Settings := {}

/-! ## Scam detector (`services/scam_detector.py`) -/

/-- Embeds `SCAM_KEYWORDS` from scam_detector.py, in source order. -/
def SCAM_KEYWORDS : List String := [
  "blocked", "verify", "urgent", "kyc", "upi", "account", "suspend",
  "immediately", "expire", "warning", "alert", "confirm", "update",
  "bank", "otp", "password", "pin", "limit", "freeze", "restricted",
  "action required", "verify now", "click here", "link below",
  "pay now", "transfer", "wallet", "refund", "prize", "winner",
  "lottery", "lucky", "selected", "reward", "claim", "bonus"]

/-- Anchored matcher for the regex `within \d+ (hour|minute|day)`:
literal "within ", one or more digits, a space, then one of the three
alternatives. -/
def withinPatAt (cs : List Char) : Bool :=
  match dropLit "within ".toList cs with
  | none => false
  | some rest =>
    match rest with
    | c :: rest2 =>
      if c.isDigit then
        let (_, r) := takeRun Char.isDigit rest2
        match dropLit [' '] r with
        | none => false
        | some r2 =>
          prefixAt "hour".toList r2 || prefixAt "minute".toList r2 ||
            prefixAt "day".toList r2
      else false
    | [] => false

/-- Anchored matcher for the regex `time.?limit`: literal "time", an
optional non-newline character, literal "limit". -/
def timeLimitPatAt (cs : List Char) : Bool :=
  match dropLit "time".toList cs with
  | none => false
  | some rest =>
    (match rest with
     | c :: rest2 => (c ≠ '\n' && prefixAt "limit".toList rest2) ||
         prefixAt "limit".toList rest
     | [] => false)

/-- Embeds `URGENCY_PATTERNS` from scam_detector.py: each pattern's source
string paired with its `re.search` semantics over the lowercased
message. -/
def URGENCY_PATTERNS : List (String × (List Char → Bool)) := [
  ("within \\d+ (hour|minute|day)", searchSuffixes withinPatAt),
  ("immediately", subMatch "immediately".toList),
  ("right now", subMatch "right now".toList),
  ("as soon as possible", subMatch "as soon as possible".toList),
  ("asap", subMatch "asap".toList),
  ("urgent", subMatch "urgent".toList),
  ("time.?limit", searchSuffixes timeLimitPatAt),
  ("expire", subMatch "expire".toList),
  ("deadline", subMatch "deadline".toList)]

/-- Threat words of the threat+urgency combo check. -/
def threat_words : List String :=
  ["blocked", "suspend", "freeze", "restricted", "expire"]

/-- Urgency words of the threat+urgency combo check. -/
def urgency_words : List String :=
  ["immediately", "urgent", "now", "asap"]

/-- Embeds `ScamDetector._calculate_heuristic_score`: +1 per matched keyword,
+2 per matched urgency pattern, +3 for the threat+urgency combo;
also returns the matched-signal list in source order. -/
def calculate_heuristic_score (message : String) : Nat × List String :=
  let ml := pyLower message.toList
  let kw := SCAM_KEYWORDS.foldl
    (fun (acc : Nat × List String) k =>
      if subMatch k.toList ml then (acc.1 + 1, acc.2 ++ [k]) else acc)
    (0, [])
  let up := URGENCY_PATTERNS.foldl
    (fun (acc : Nat × List String) pm =>
      if pm.2 ml then (acc.1 + 2, acc.2 ++ ["urgency:" ++ pm.1]) else acc)
    kw
  let has_threat := threat_words.any (fun w => subMatch w.toList ml)
  let has_urgency := urgency_words.any (fun w => subMatch w.toList ml)
  if has_threat && has_urgency then
    (up.1 + 3, up.2 ++ ["threat+urgency_combo"])
  else up

/-- Result of the external LLM classification (`_llm_classify`): the
network call is modelled as an input; failure and missing configuration
already degrade to `UNCERTAIN` inside `_llm_classify`. -/
inductive LlmResult where
  | SCAM
  | NOT_SCAM
  | UNCERTAIN
deriving DecidableEq

/-- Rendering of an `LlmResult` in the detector's f-strings. -/
def llmResultStr : LlmResult → String
  | .SCAM => "SCAM"
  | .NOT_SCAM => "NOT_SCAM"
  | .UNCERTAIN => "UNCERTAIN"

/-- Return value of `ScamDetector.detect`. -/
structure DetectResult where
  isScam : Bool
  reason : String
  matchedKeywords : List String
deriving DecidableEq

/-- The f-string of the heuristic-threshold rule. -/
def heuristicReason (score thr : Nat) : String :=
  "Heuristic score " ++ toString score ++ " >= threshold (" ++ toString thr ++ ")"

/-- The f-string of the moderate-heuristics-plus-uncertain rule. -/
def moderateReason (score : Nat) : String :=
  "Moderate heuristics (" ++ toString score ++ ") + LLM uncertain"

/-- The f-string of the not-a-scam fallback. -/
def noIndicatorsReason (score : Nat) (llm : LlmResult) : String :=
  "No scam indicators (heuristic: " ++ toString score ++ ", LLM: " ++
    llmResultStr llm ++ ")"

/-- Embeds `ScamDetector.detect`: heuristic score, then the three sequential
decision steps (each later step overwriting `reason`), then the
not-a-scam fallback reason. -/
def detect (st : Settings) (message : String) (llm : LlmResult) : DetectResult :=
  let hs := calculate_heuristic_score message
  let score := hs.1
  let thr := st.HEURISTIC_THRESHOLD
  let r1 : Bool × String :=
    if score ≥ thr then (true, heuristicReason score thr) else (false, "")
  let r2 : Bool × String :=
    if llm = .SCAM then
      (true, if r1.2 ≠ "" then "LLM classified as SCAM. " ++ r1.2
        else "LLM classified as SCAM")
    else r1
  let r3 : Bool × String :=
    if score ≥ 2 ∧ llm = .UNCERTAIN then (true, moderateReason score) else r2
  if r3.1 then ⟨true, r3.2, hs.2⟩
  else ⟨false, noIndicatorsReason score llm, hs.2⟩

/-! ## Intelligence extractor (`services/intelligence_extractor.py`) -/

/-- Consume exactly `n` digits, returning them and the rest. -/
def digitsN : Nat → List Char → Option (List Char × List Char)
  | 0, cs => some ([], cs)
  | _ + 1, [] => none
  | n + 1, c :: cs =>
    if c.isDigit then
      match digitsN n cs with
      | some (d, r) => some (c :: d, r)
      | none => none
    else none

/-- The `[6-9]\d{9}` core of the phone regex. -/
def phoneCore (cs : List Char) : Option (List Char × List Char) :=
  match cs with
  | c :: rest =>
    if c = '6' || c = '7' || c = '8' || c = '9' then
      match digitsN 9 rest with
      | some (d, r) => some (c :: d, r)
      | none => none
    else none
  | [] => none

/-- First alternative of the phone regex, `(?:\+91[\s-]?)?[6-9]\d{9}`,
with Python's backtracking order: country-code group with separator,
then without, then group absent. -/
def phoneBranch1 (cs : List Char) : Option (List Char × List Char) :=
  match cs with
  | '+' :: '9' :: '1' :: rest =>
    (match rest with
     | c :: rest2 =>
       if pyIsSpace c || c = '-' then
         match phoneCore rest2 with
         | some (m, r) => some ('+' :: '9' :: '1' :: c :: m, r)
         | none =>
           match phoneCore rest with
           | some (m, r) => some ('+' :: '9' :: '1' :: m, r)
           | none => phoneCore cs
       else
         match phoneCore rest with
         | some (m, r) => some ('+' :: '9' :: '1' :: m, r)
         | none => phoneCore cs
     | [] => phoneCore cs)
  | _ => phoneCore cs

/-- Left word-boundary test of `\b` before a digit: the previous
character is absent (start of text) or not a word character. -/
def boundaryOk (prev : Option Char) : Bool :=
  match prev with
  | none => true
  | some p => !isWordChar p

/-- Second alternative, `\b\d{10}\b`; `prev` is the character before the
current position (none at the start of the text). -/
def phoneBranch2 (prev : Option Char) (cs : List Char) : Option (List Char × List Char) :=
  if boundaryOk prev then
    match digitsN 10 cs with
    | some (m, r) =>
      (match r with
       | [] => some (m, r)
       | c :: _ => if isWordChar c then none else some (m, r))
    | none => none
  else none

/-- Last character of a match, falling back to the previous context
character (matches here are never empty). -/
def lastOr (m : List Char) (prev : Option Char) : Option Char :=
  match m.getLast? with
  | some c => some c
  | none => prev

/-- Embeds `re.findall` scan for the phone regex: leftmost match, first
alternative preferred, resume after each match, advance one character on
failure.  `fuel` only bounds the recursion; `text.length + 1` is always
enough since every step consumes at least one character. -/
def phoneScan : Nat → Option Char → List Char → List (List Char)
  | 0, _, _ => []
  | _ + 1, _, [] => []
  | fuel + 1, prev, c :: rest =>
    match phoneBranch1 (c :: rest) with
    | some (m, r) => m :: phoneScan fuel (lastOr m prev) r
    | none =>
      match phoneBranch2 prev (c :: rest) with
      | some (m, r) => m :: phoneScan fuel (lastOr m prev) r
      | none => phoneScan fuel (some c) rest

/-- Normalisation of one findall match: strip whitespace/dash/plus
(`re.sub(r"[\s\-+]", "", match)`), then strip a leading "91" country
code. -/
def phoneNormalize (m : List Char) : List Char :=
  if prefixAt "91".toList (m.filter (fun c => !(pyIsSpace c || c = '-' || c = '+')))
  then (m.filter (fun c => !(pyIsSpace c || c = '-' || c = '+'))).drop 2
  else m.filter (fun c => !(pyIsSpace c || c = '-' || c = '+'))

/-- Filter step of `extract_phone_numbers` for one findall match: keep
the normalised value when it is 10 digits starting 6-9. -/
def phoneKeep (acc : List String) (m : List Char) : List String :=
  if (phoneNormalize m).length = 10 &&
      (match phoneNormalize m with
       | c :: _ => c = '6' || c = '7' || c = '8' || c = '9'
       | [] => false) then
    setAdd acc (String.mk (phoneNormalize m))
  else acc

/-- Embeds `IntelligenceExtractor.extract_phone_numbers`: findall matches, then
the normalisation/filter step per match, deduplicated. -/
def extract_phone_numbers (text : String) : List String :=
  let ms := phoneScan (text.toList.length + 1) none text.toList
  ms.foldl phoneKeep []

/-- Character class `[a-zA-Z0-9.\-_]` of the UPI regex. -/
def upiNameChar (c : Char) : Bool :=
  c.isAlpha || c.isDigit || c = '.' || c = '-' || c = '_'

/-- Anchored matcher for `[a-zA-Z0-9.\-_]{2,}@[a-zA-Z]{2,}`.  The greedy
runs never backtrack: `@` is not in the first class and nothing follows
the second. -/
def upiMatchAt (cs : List Char) : Option (List Char × List Char) :=
  let (a, r) := takeRun upiNameChar cs
  if a.length ≥ 2 then
    match r with
    | '@' :: r2 =>
      let (b, r3) := takeRun Char.isAlpha r2
      if b.length ≥ 2 then some (a ++ '@' :: b, r3) else none
    | _ => none
  else none

/-- Embeds `re.findall` scan for the UPI regex. -/
def upiScan : Nat → List Char → List (List Char)
  | 0, _ => []
  | _ + 1, [] => []
  | fuel + 1, c :: rest =>
    match upiMatchAt (c :: rest) with
    | some (m, r) => m :: upiScan fuel r
    | none => upiScan fuel rest

/-- Embeds `IntelligenceExtractor.extract_upi_ids`: keep matches whose provider
part (after `@`) has length ≤ 10, lowercased, deduplicated. -/
def extract_upi_ids (text : String) : List String :=
  let ms := upiScan (text.toList.length + 1) text.toList
  ms.foldl (fun acc m =>
    match (String.mk m).split (· = '@') with
    | [_, b] => if b.length ≤ 10 then setAdd acc (String.mk (pyLower m)) else acc
    | _ => acc) []

/-- Anchored matcher for `\b\d{9,18}\b`.  Greedy backtracking inside a
digit run always lands on a digit (a word character), so the regex
matches exactly the maximal run when its length is in 9..18 and a
non-word character (or the end) follows. -/
def bankMatchAt (prev : Option Char) (cs : List Char) : Option (List Char × List Char) :=
  let leftOk := match prev with
    | none => true
    | some p => !isWordChar p
  if leftOk then
    let (run, r) := takeRun Char.isDigit cs
    let rightOk := match r with
      | [] => true
      | c :: _ => !isWordChar c
    if 9 ≤ run.length && run.length ≤ 18 && rightOk then some (run, r)
    else none
  else none

/-- Embeds `re.findall` scan for the bank-account regex. -/
def bankScan : Nat → Option Char → List Char → List (List Char)
  | 0, _, _ => []
  | _ + 1, _, [] => []
  | fuel + 1, prev, c :: rest =>
    match bankMatchAt prev (c :: rest) with
    | some (m, r) => m :: bankScan fuel (lastOr m prev) r
    | none => bankScan fuel (some c) rest

/-- Embeds `IntelligenceExtractor.extract_bank_accounts`: keep 9-18 digit runs,
dropping any 10-digit run starting 6-9 (phone shaped), deduplicated. -/
def extract_bank_accounts (text : String) : List String :=
  let ms := bankScan (text.toList.length + 1) none text.toList
  ms.foldl (fun acc m =>
    if 9 ≤ m.length && m.length ≤ 18 then
      if m.length = 10 &&
          (match m with
           | c :: _ => c = '6' || c = '7' || c = '8' || c = '9'
           | [] => false) then acc
      else setAdd acc (String.mk m)
    else acc) []

/-- Character class `[^\s<>"']` of the URL regex. -/
def urlBodyChar (c : Char) : Bool :=
  !(pyIsSpace c || c = '<' || c = '>' || c = dquoteChar || c = squoteChar)

/-- Case-insensitive literal at the front of the text; returns the
consumed original characters and the rest. -/
def ciDropLit : List Char → List Char → Option (List Char × List Char)
  | [], cs => some ([], cs)
  | _ :: _, [] => none
  | a :: as, b :: bs =>
    if a.toLower = b.toLower then
      match ciDropLit as bs with
      | some (m, r) => some (b :: m, r)
      | none => none
    else none

/-- First URL alternative, `https?://[^\s<>"']+` (IGNORECASE): the
optional `s` is tried greedily, then without. -/
def urlBranch1 (cs : List Char) : Option (List Char × List Char) :=
  match ciDropLit "http".toList cs with
  | none => none
  | some (m1, r1) =>
    let scheme : Option (List Char × List Char) :=
      match r1 with
      | c :: r2 =>
        if c.toLower = 's' then
          match ciDropLit "://".toList r2 with
          | some (m2, r3) => some (m1 ++ c :: m2, r3)
          | none =>
            match ciDropLit "://".toList r1 with
            | some (m2, r3) => some (m1 ++ m2, r3)
            | none => none
        else
          match ciDropLit "://".toList r1 with
          | some (m2, r3) => some (m1 ++ m2, r3)
          | none => none
      | [] => none
    match scheme with
    | some (m, r) =>
      let (body, r2) := takeRun urlBodyChar r
      if body.length ≥ 1 then some (m ++ body, r2) else none
    | none => none

/-- Second URL alternative, `www\.[^\s<>"']+` (IGNORECASE). -/
def urlBranch2 (cs : List Char) : Option (List Char × List Char) :=
  match ciDropLit "www.".toList cs with
  | none => none
  | some (m, r) =>
    let (body, r2) := takeRun urlBodyChar r
    if body.length ≥ 1 then some (m ++ body, r2) else none

/-- Anchored matcher for the URL regex (alternation order as written). -/
def urlMatchAt (cs : List Char) : Option (List Char × List Char) :=
  match urlBranch1 cs with
  | some x => some x
  | none => urlBranch2 cs

/-- Embeds `re.findall` scan for the URL regex. -/
def urlScan : Nat → List Char → List (List Char)
  | 0, _ => []
  | _ + 1, [] => []
  | fuel + 1, c :: rest =>
    match urlMatchAt (c :: rest) with
    | some (m, r) => m :: urlScan fuel r
    | none => urlScan fuel rest

/-- Embeds `IntelligenceExtractor.extract_urls`: the deduplicated raw matches. -/
def extract_urls (text : String) : List String :=
  let ms := urlScan (text.toList.length + 1) text.toList
  ms.foldl (fun acc m => setAdd acc (String.mk m)) []

/-- Embeds `SUSPICIOUS_KEYWORDS` from intelligence_extractor.py. -/
def SUSPICIOUS_KEYWORDS : List String := [
  "urgent", "verify", "blocked", "suspend", "kyc", "expire",
  "immediately", "account", "bank", "upi", "otp", "password",
  "transfer", "payment", "refund", "prize", "lottery", "winner",
  "click", "link", "confirm", "update", "action", "required"]

/-- Embeds `IntelligenceExtractor.extract_keywords`: case-insensitive substring
match against the fixed vocabulary. -/
def extract_keywords (text : String) : List String :=
  let ml := pyLower text.toList
  SUSPICIOUS_KEYWORDS.foldl
    (fun acc k => if subMatch k.toList ml then setAdd acc k else acc) []

/-- Embeds `IntelligenceExtractor.extract_all`: run the five extractors and
union each result with the existing field as sets. -/
def extract_all (text : String) (existing : Intelligence) : Intelligence :=
  let new_upi := extract_upi_ids text
  let new_phones := extract_phone_numbers text
  let new_accounts := extract_bank_accounts text
  let new_urls := extract_urls text
  let new_keywords := extract_keywords text
  { upiIds := setUnion existing.upiIds new_upi
    phoneNumbers := setUnion existing.phoneNumbers new_phones
    bankAccounts := setUnion existing.bankAccounts new_accounts
    phishingLinks := setUnion existing.phishingLinks new_urls
    suspiciousKeywords := setUnion existing.suspiciousKeywords new_keywords }

/-! ## Decision engine (`services/decision_engine.py`) -/

/-- The urgency subset checked together with phone numbers. -/
def urgency_keywords : List String :=
  ["urgent", "immediately", "asap", "now", "expire", "blocked"]

/-- Embeds `DecisionEngine.should_complete`: the four completion criteria in
source order, with the source's reason strings. -/
def should_complete (st : Settings) (session : SessionState) : Bool × String :=
  let intel := session.intelligence
  if intel.upiIds.length ≥ 1 then
    (true, "Extracted " ++ toString intel.upiIds.length ++ " UPI ID(s)")
  else if intel.phishingLinks.length ≥ 1 then
    (true, "Extracted " ++ toString intel.phishingLinks.length ++ " phishing link(s)")
  else
    let has_urgency := intel.suspiciousKeywords.any (fun k => k ∈ urgency_keywords)
    if intel.phoneNumbers.length ≥ 1 && has_urgency then
      (true, "Extracted phone number(s) with urgency keywords")
    else if session.totalMessages ≥ st.MAX_MESSAGES_BEFORE_COMPLETE then
      (true, "Reached message limit (" ++ toString session.totalMessages ++ ")")
    else (false, "Conversation ongoing")

/-! ## Session manager (`services/session_manager.py`)

The session dict is modelled as an association list in insertion order;
`datetime.utcnow().isoformat()` is passed in as an explicit `now`
string. -/

/-- The session store (`SessionManager._sessions`). -/
abbrev Store := List (String × SessionState)

/-- Dict lookup. -/
def storeGet : Store → String → Option SessionState
  | [], _ => none
  | (k, s) :: rest, sid => if k = sid then some s else storeGet rest sid

/-- Dict assignment: replace the value in place (keeping insertion
order), or append a new key. -/
def storeSet : Store → String → SessionState → Store
  | [], sid, s => [(sid, s)]
  | (k, s0) :: rest, sid, s =>
    if k = sid then (sid, s) :: rest else (k, s0) :: storeSet rest sid s

/-- Embeds `SessionManager.get_session`. -/
def get_session (store : Store) (sid : String) : Option SessionState :=
  storeGet store sid

/-- Embeds `SessionManager.get_or_create_session`: creates a default session
(timestamps from the constructor) when absent. -/
def get_or_create_session (store : Store) (sid : String) (now : String) :
    Store × SessionState :=
  match storeGet store sid with
  | some s => (store, s)
  | none =>
    let s : SessionState :=
      { sessionId := sid, createdAt := now, updatedAt := now }
    (storeSet store sid s, s)

/-- The `**updates` keyword arguments of `update_session`: any subset of
the session's fields may be supplied. -/
structure Updates where
  sessionId : Option String := none
  scamDetected : Option Bool := none
  agentActivated : Option Bool := none
  totalMessages : Option Nat := none
  intelligence : Option Intelligence := none
  conversationHistory : Option (List ConversationTurn) := none
  agentNotes : Option String := none
  conversationComplete : Option Bool := none
  callbackSent : Option Bool := none
  createdAt : Option String := none
  updatedAt : Option String := none
deriving DecidableEq

/-- The `setattr` loop of `update_session`: each supplied field
overwrites the session's field. -/
def applyUpdates (s : SessionState) (u : Updates) : SessionState :=
  { sessionId := u.sessionId.getD s.sessionId
    scamDetected := u.scamDetected.getD s.scamDetected
    agentActivated := u.agentActivated.getD s.agentActivated
    totalMessages := u.totalMessages.getD s.totalMessages
    intelligence := u.intelligence.getD s.intelligence
    conversationHistory := u.conversationHistory.getD s.conversationHistory
    agentNotes := u.agentNotes.getD s.agentNotes
    conversationComplete := u.conversationComplete.getD s.conversationComplete
    callbackSent := u.callbackSent.getD s.callbackSent
    createdAt := u.createdAt.getD s.createdAt
    updatedAt := u.updatedAt.getD s.updatedAt }

/-- Embeds `SessionManager.update_session`: raises `ValueError` for a missing
session (modelled as `Except.error`), otherwise applies the updates and
refreshes `updatedAt`. -/
def update_session (store : Store) (sid : String) (u : Updates) (now : String) :
    Except String (Store × SessionState) :=
  match storeGet store sid with
  | none => .error ("Session " ++ sid ++ " not found")
  | some s =>
    let s2 := { applyUpdates s u with updatedAt := now }
    .ok (storeSet store sid s2, s2)

/-- Embeds `SessionManager.mark_scam_detected`. -/
def mark_scam_detected (store : Store) (sid : String) (now : String) :
    Except String (Store × SessionState) :=
  update_session store sid { scamDetected := some true, agentActivated := some true } now

/-- Embeds `SessionManager.increment_message_count`: silently returns `None`
and leaves the store unchanged when the session is missing. -/
def increment_message_count (store : Store) (sid : String) (now : String) :
    Store × Option SessionState :=
  match storeGet store sid with
  | none => (store, none)
  | some s =>
    let s2 := { s with totalMessages := s.totalMessages + 1, updatedAt := now }
    (storeSet store sid s2, some s2)

/-- Embeds `SessionManager.mark_complete`. -/
def mark_complete (store : Store) (sid : String) (notes : String) (now : String) :
    Except String (Store × SessionState) :=
  update_session store sid
    { conversationComplete := some true, agentNotes := some notes } now

/-- Embeds `SessionManager.mark_callback_sent`. -/
def mark_callback_sent (store : Store) (sid : String) (now : String) :
    Except String (Store × SessionState) :=
  update_session store sid { callbackSent := some true } now

/-- The store operations of `SessionManager` as abstract events, for
reasoning about operation sequences. -/
inductive SMOp where
  | getOrCreate (sid : String)
  | update (sid : String) (u : Updates)
  | markScamDetected (sid : String)
  | incrementMessageCount (sid : String)
  | markComplete (sid : String) (notes : String)
  | markCallbackSent (sid : String)

/-- Effect of one operation on the store; a raising `update_session`
leaves the dict untouched. -/
def runOp (store : Store) (op : SMOp) (now : String) : Store :=
  match op with
  | .getOrCreate sid => (get_or_create_session store sid now).1
  | .update sid u =>
    (match update_session store sid u now with
     | .ok (st, _) => st
     | .error _ => store)
  | .markScamDetected sid =>
    (match mark_scam_detected store sid now with
     | .ok (st, _) => st
     | .error _ => store)
  | .incrementMessageCount sid => (increment_message_count store sid now).1
  | .markComplete sid notes =>
    (match mark_complete store sid notes now with
     | .ok (st, _) => st
     | .error _ => store)
  | .markCallbackSent sid =>
    (match mark_callback_sent store sid now with
     | .ok (st, _) => st
     | .error _ => store)

/-- Run a sequence of operations, each with its wall-clock string. -/
def runOps (store : Store) : List (SMOp × String) → Store
  | [] => store
  | (op, now) :: rest => runOps (runOp store op now) rest

/-! ## GUVI callback dispatcher (`services/guvi_callback.py`)

The network is modelled as a map from the attempt number (1-based) to
that attempt's outcome; the returned record also exposes how many POSTs
were made and which backoff sleeps were executed. -/

/-- Outcome of one `requests.post` delivery attempt. -/
inductive AttemptOutcome where
  | status (code : Nat) (text : String)
  | timeout
  | connectionError (msg : String)
  | requestException (msg : String)
deriving DecidableEq

/-- Per-attempt handling inside the retry loop: `none` means the attempt
succeeded (`status_code in [200, 201, 202]`), otherwise the
`last_error` string recorded by the source. -/
def attemptError (tmo : Nat) : AttemptOutcome → Option String
  | .status c text =>
    if c = 200 ∨ c = 201 ∨ c = 202 then none
    else some ("HTTP " ++ toString c ++ ": " ++ text.take 100)
  | .timeout => some ("Timeout (>" ++ toString tmo ++ "s)")
  | .connectionError m => some ("Connection error: " ++ m.take 50)
  | .requestException m => some ("Request error: " ++ m.take 50)

/-- Observable result of `send_callback`: the returned pair plus the
network/sleep trace. -/
structure CallbackResult where
  success : Bool
  error : Option String
  attemptsMade : Nat
  sleeps : List Nat
deriving DecidableEq

/-- The retry loop of `send_callback`: `remaining` attempts left,
current 1-based attempt number; returns (success, last error, attempts
made, sleeps executed).  A failed attempt is followed by a
`2^(attempt-1)` second sleep unless it was the last. -/
def sendLoop (outcomes : Nat → AttemptOutcome) (tmo : Nat) :
    Nat → Nat → Bool × Option String × Nat × List Nat
  | 0, _ => (false, none, 0, [])
  | remaining + 1, attempt =>
    match attemptError tmo (outcomes attempt) with
    | none => (true, none, 1, [])
    | some err =>
      if remaining = 0 then (false, some err, 1, [])
      else
        let res := sendLoop outcomes tmo remaining (attempt + 1)
        (res.1, res.2.1, res.2.2.1 + 1, 2 ^ (attempt - 1) :: res.2.2.2)

/-- Embeds `GuviCallback.send_callback`: the three precondition checks (each an
early failure return with no network activity), then up to
`max_retries = 3` delivery attempts with exponential backoff. -/
def send_callback (st : Settings) (session : SessionState)
    (outcomes : Nat → AttemptOutcome) : CallbackResult :=
  if !session.scamDetected then
    ⟨false, some "Scam not detected, skipping callback", 0, []⟩
  else if !session.conversationComplete then
    ⟨false, some "Conversation not complete, skipping callback", 0, []⟩
  else if session.callbackSent then
    ⟨false, some "Callback already sent for this session", 0, []⟩
  else
    let max_retries := 3
    let res := sendLoop outcomes st.CALLBACK_TIMEOUT_SECONDS max_retries 1
    if res.1 then ⟨true, none, res.2.2.1, res.2.2.2⟩
    else
      ⟨false,
        some ("Failed after " ++ toString max_retries ++ " attempts: " ++
          res.2.1.getD ""),
        res.2.2.1, res.2.2.2⟩

/-! ## Auxiliary predicates used by the claim statements -/

/-- A delivery attempt the retry loop counts as a success: the endpoint
responded and the status code is one of 200, 201, 202. -/
def attemptSucceeded : AttemptOutcome → Bool
  | .status c _ => c = 200 || c = 201 || c = 202
  | _ => false

/-- Modelled from the amended claim C2 wording: the reported reason is
the justification of the LAST applicable rule in the precedence order
(moderate-heuristics+uncertain over external-SCAM over threshold), the
external-SCAM justification prepending itself to the threshold
justification when both apply. -/
def reasonAmended (st : Settings) (message : String) (llm : LlmResult) : String :=
  let score := (calculate_heuristic_score message).1
  let thr := st.HEURISTIC_THRESHOLD
  if 2 ≤ score ∧ llm = .UNCERTAIN then moderateReason score
  else if llm = .SCAM then
    if thr ≤ score then "LLM classified as SCAM. " ++ heuristicReason score thr
    else "LLM classified as SCAM"
  else if thr ≤ score then heuristicReason score thr
  else noIndicatorsReason score llm

/-- Characters that can appear in a phone-regex match: digits, the plus
sign, whitespace and the dash. -/
def phoneChar (c : Char) : Bool :=
  c.isDigit || c = '+' || pyIsSpace c || c = '-'

/-- Shape of a value the phone extractor may return: a digits-only
10-character string starting with 6, 7, 8 or 9. -/
def phoneShape (p : String) : Prop :=
  p.length = 10 ∧ p.toList.all Char.isDigit = true ∧
    (p.toList.head? = some '6' ∨ p.toList.head? = some '7' ∨
      p.toList.head? = some '8' ∨ p.toList.head? = some '9')

/-- Two intelligence records denote the same five sets. -/
def intelEqSets (a b : Intelligence) : Prop :=
  eqAsSets a.bankAccounts b.bankAccounts ∧ eqAsSets a.upiIds b.upiIds ∧
  eqAsSets a.phoneNumbers b.phoneNumbers ∧
  eqAsSets a.phishingLinks b.phishingLinks ∧
  eqAsSets a.suspiciousKeywords b.suspiciousKeywords

/-- A store operation whose updates do not explicitly force one of the
three monitored flags back to false (every operation other than a raw
`update_session` qualifies). -/
def benignOp : SMOp → Prop
  | .update _ u => u.scamDetected ≠ some false ∧
      u.conversationComplete ≠ some false ∧ u.callbackSent ≠ some false
  | _ => True

/-- The three monitored flags of a session in the store (all false while
the session does not exist). -/
def sessionFlags (store : Store) (sid : String) : Bool × Bool × Bool :=
  match storeGet store sid with
  | none => (false, false, false)
  | some s => (s.scamDetected, s.conversationComplete, s.callbackSent)

/-! ## Helper lemmas -/

/-- The threshold-rule justification is never the empty string (the
truthiness test `if reason` in the source distinguishes exactly this). -/
theorem heuristicReason_ne_empty (score thr : Nat) : heuristicReason score thr ≠ "" := by
  intro h
  have hd : (heuristicReason score thr).data = "".data := congrArg String.data h
  unfold heuristicReason at hd
  repeat rw [String.data_append] at hd
  simp at hd

/-- An attempt produces no error exactly when it succeeded. -/
theorem attemptError_eq_none_iff (tmo : Nat) (o : AttemptOutcome) :
    attemptError tmo o = none ↔ attemptSucceeded o = true := by
  cases o <;> simp [attemptError, attemptSucceeded]
  tauto

/-- A failed attempt produces some error string. -/
theorem attemptError_eq_some_of_fail (tmo : Nat) (o : AttemptOutcome)
    (h : attemptSucceeded o = false) : ∃ e, attemptError tmo o = some e := by
  cases ho : attemptError tmo o with
  | none =>
    rw [attemptError_eq_none_iff] at ho
    rw [ho] at h
    exact absurd h (by simp)
  | some e => exact ⟨e, rfl⟩

/-- Membership after a set-insert. -/
theorem mem_setAdd {acc : List String} {x y : String} :
    y ∈ setAdd acc x ↔ y ∈ acc ∨ y = x := by
  unfold setAdd
  split_ifs with h
  · constructor
    · exact fun hy => Or.inl hy
    · rintro (hy | rfl)
      · exact hy
      · exact h
  · simp

/-- Membership after folding set-inserts. -/
theorem mem_foldl_setAdd (l : List String) (acc : List String) (y : String) :
    y ∈ l.foldl setAdd acc ↔ y ∈ acc ∨ y ∈ l := by
  induction l generalizing acc with
  | nil => simp
  | cons x xs ih => simp [List.foldl_cons, ih, mem_setAdd, or_assoc]

/-- Membership in `setUnion` is set-union membership. -/
theorem mem_setUnion (a b : List String) (y : String) :
    y ∈ setUnion a b ↔ y ∈ a ∨ y ∈ b := by
  unfold setUnion
  rw [mem_foldl_setAdd]
  simp

/-- A 6-9 leading character is a digit. -/
theorem sixToNine_isDigit {c : Char}
    (h : (c = '6' || c = '7' || c = '8' || c = '9') = true) :
    c.isDigit = true := by
  simp only [Bool.or_eq_true, decide_eq_true_eq] at h
  rcases h with ((rfl | rfl) | rfl) | rfl <;> decide

/-- Digits survive the whitespace/dash/plus strip. -/
theorem digit_not_stripped {c : Char} (h : c.isDigit = true) :
    (pyIsSpace c || c = '-' || c = '+') = false := by
  by_contra hc
  rw [Bool.not_eq_false] at hc
  simp only [pyIsSpace, Bool.or_eq_true, decide_eq_true_eq] at hc
  rcases hc with ((((((rfl | rfl) | rfl) | rfl) | rfl) | rfl) | rfl) | rfl <;>
    exact absurd h (by decide)

/-- All-digit lists consist of phone-match characters. -/
theorem all_digit_phoneChar {m : List Char} (h : m.all Char.isDigit = true) :
    m.all phoneChar = true := by
  rw [List.all_eq_true] at h ⊢
  intro c hc
  simp [phoneChar, h c hc]

/-- Lists produced by `digitsN` consist of digit characters. -/
theorem digitsN_all_digits : ∀ (n : Nat) (cs d r : List Char),
    digitsN n cs = some (d, r) → d.all Char.isDigit = true := by
  intro n
  induction n with
  | zero =>
    intro cs d r h
    simp only [digitsN, Option.some.injEq, Prod.mk.injEq] at h
    rw [← h.1]
    rfl
  | succ n ih =>
    intro cs d r h
    cases cs with
    | nil => exact absurd h (by simp [digitsN])
    | cons c cs2 =>
      simp only [digitsN] at h
      split_ifs at h with hc
      cases hd : digitsN n cs2 with
      | none => rw [hd] at h; exact absurd h (by simp)
      | some pr =>
        obtain ⟨d2, r2⟩ := pr
        rw [hd] at h
        simp only [Option.some.injEq, Prod.mk.injEq] at h
        rw [← h.1]
        simp [List.all_cons, hc, ih cs2 d2 r2 hd]

/-- On an all-digit list of exactly the requested length, `digitsN`
consumes the list whole. -/
theorem digitsN_full : ∀ (cs : List Char), cs.all Char.isDigit = true →
    digitsN cs.length cs = some (cs, []) := by
  intro cs
  induction cs with
  | nil => intro _; rfl
  | cons c rest ih =>
    intro h
    simp only [List.all_cons, Bool.and_eq_true] at h
    simp only [List.length_cons, digitsN, h.1, if_true]
    rw [ih h.2]

/-- The `[6-9]\d{9}` core yields digit strings. -/
theorem phoneCore_all_digits (cs m r : List Char)
    (h : phoneCore cs = some (m, r)) : m.all Char.isDigit = true := by
  cases cs with
  | nil => exact absurd h (by simp [phoneCore])
  | cons c rest =>
    simp only [phoneCore] at h
    split_ifs at h with hc
    cases hd : digitsN 9 rest with
    | none => rw [hd] at h; exact absurd h (by simp)
    | some pr =>
      obtain ⟨d, r2⟩ := pr
      rw [hd] at h
      simp only [Option.some.injEq, Prod.mk.injEq] at h
      rw [← h.1]
      simp [List.all_cons, sixToNine_isDigit hc, digitsN_all_digits 9 rest d r2 hd]

/-- Matches of the first phone alternative consist of phone-match
characters. -/
theorem phoneBranch1_chars (cs m r : List Char)
    (h : phoneBranch1 cs = some (m, r)) : m.all phoneChar = true := by
  unfold phoneBranch1 at h
  split at h
  · -- cs = '+' :: '9' :: '1' :: rest
    split at h
    · -- rest = c :: rest2
      rename_i c rest2
      split_ifs at h with hsep
      · cases h1 : phoneCore rest2 with
        | some pr =>
          obtain ⟨m1, r1⟩ := pr
          rw [h1] at h
          simp only [Option.some.injEq, Prod.mk.injEq] at h
          rw [← h.1]
          have hm1 := all_digit_phoneChar (phoneCore_all_digits _ m1 r1 h1)
          have hcsep : phoneChar c = true := by
            simp only [phoneChar, Bool.or_eq_true]
            simp only [Bool.or_eq_true] at hsep
            tauto
          simp only [List.all_cons, Bool.and_eq_true]
          exact ⟨by decide, by decide, by decide, hcsep, hm1⟩
        | none =>
          rw [h1] at h
          cases h2 : phoneCore (c :: rest2) with
          | some pr =>
            obtain ⟨m1, r1⟩ := pr
            rw [h2] at h
            simp only [Option.some.injEq, Prod.mk.injEq] at h
            rw [← h.1]
            have hm1 := all_digit_phoneChar (phoneCore_all_digits _ m1 r1 h2)
            simp [List.all_cons, hm1, phoneChar]
          | none =>
            rw [h2] at h
            exact all_digit_phoneChar (phoneCore_all_digits _ m r h)
      · cases h2 : phoneCore (c :: rest2) with
        | some pr =>
          obtain ⟨m1, r1⟩ := pr
          rw [h2] at h
          simp only [Option.some.injEq, Prod.mk.injEq] at h
          rw [← h.1]
          have hm1 := all_digit_phoneChar (phoneCore_all_digits _ m1 r1 h2)
          simp [List.all_cons, hm1, phoneChar]
        | none =>
          rw [h2] at h
          exact all_digit_phoneChar (phoneCore_all_digits _ m r h)
    · -- rest = []
      exact all_digit_phoneChar (phoneCore_all_digits _ m r h)
  · exact all_digit_phoneChar (phoneCore_all_digits _ m r h)

/-- Matches of the second phone alternative are digit strings. -/
theorem phoneBranch2_chars (prev : Option Char) (cs m r : List Char)
    (h : phoneBranch2 prev cs = some (m, r)) : m.all phoneChar = true := by
  unfold phoneBranch2 at h
  split_ifs at h with hleft
  split at h
  · rename_i d r2 heq
    have hdig := digitsN_all_digits 10 cs d r2 heq
    split at h
    · simp only [Option.some.injEq, Prod.mk.injEq] at h
      rw [← h.1]
      exact all_digit_phoneChar hdig
    · split_ifs at h with hw
      simp only [Option.some.injEq, Prod.mk.injEq] at h
      rw [← h.1]
      exact all_digit_phoneChar hdig
  · exact absurd h (by simp)

/-- Every findall phone match consists of phone-match characters. -/
theorem phoneScan_chars : ∀ (fuel : Nat) (prev : Option Char) (cs m : List Char),
    m ∈ phoneScan fuel prev cs → m.all phoneChar = true := by
  intro fuel
  induction fuel with
  | zero => intro prev cs m h; exact absurd h (by simp [phoneScan])
  | succ fuel ih =>
    intro prev cs m h
    cases cs with
    | nil => exact absurd h (by simp [phoneScan])
    | cons c rest =>
      simp only [phoneScan] at h
      cases hb1 : phoneBranch1 (c :: rest) with
      | some pr =>
        obtain ⟨m1, r⟩ := pr
        rw [hb1] at h
        rcases List.mem_cons.1 h with rfl | h2
        · exact phoneBranch1_chars _ _ _ hb1
        · exact ih _ _ _ h2
      | none =>
        rw [hb1] at h
        cases hb2 : phoneBranch2 prev (c :: rest) with
        | some pr =>
          obtain ⟨m1, r⟩ := pr
          rw [hb2] at h
          rcases List.mem_cons.1 h with rfl | h2
          · exact phoneBranch2_chars _ _ _ _ hb2
          · exact ih _ _ _ h2
        | none =>
          rw [hb2] at h
          exact ih _ _ _ h

/-- A phone-match character that survives the strip filter is a digit. -/
theorem phoneChar_kept_digit {c : Char} (h1 : phoneChar c = true)
    (h2 : (!(pyIsSpace c || c = '-' || c = '+')) = true) : c.isDigit = true := by
  have h2' : (pyIsSpace c || c = '-' || c = '+') = false := by
    rwa [Bool.not_eq_true'] at h2
  simp only [phoneChar, Bool.or_eq_true, decide_eq_true_eq] at h1
  rcases h1 with ((hd | rfl) | hsp) | rfl
  · exact hd
  · exact absurd h2' (by decide)
  · rw [hsp] at h2'
    exact absurd h2' (by simp)
  · exact absurd h2' (by decide)

/-- The normalised value of a phone match is all digits. -/
theorem phoneNormalize_digits {m : List Char} (hm : m.all phoneChar = true) :
    (phoneNormalize m).all Char.isDigit = true := by
  have hfil : (m.filter (fun c => !(pyIsSpace c || c = '-' || c = '+'))).all
      Char.isDigit = true := by
    rw [List.all_eq_true]
    intro c hc
    rw [List.mem_filter] at hc
    exact phoneChar_kept_digit ((List.all_eq_true.1 hm) c hc.1) hc.2
  unfold phoneNormalize
  split_ifs
  · rw [List.all_eq_true] at hfil ⊢
    intro c hc
    exact hfil c (List.drop_subset _ _ hc)
  · exact hfil

/-- Anything `phoneKeep` adds has the 10-digit 6-9 shape. -/
theorem phoneKeep_sound (acc : List String) (m : List Char) (p : String)
    (hm : m.all phoneChar = true) (hp : p ∈ phoneKeep acc m) :
    p ∈ acc ∨ phoneShape p := by
  unfold phoneKeep at hp
  split_ifs at hp with hg
  · rcases mem_setAdd.1 hp with h | rfl
    · exact Or.inl h
    · right
      simp only [Bool.and_eq_true, decide_eq_true_eq] at hg
      refine ⟨hg.1, phoneNormalize_digits hm, ?_⟩
      rcases hn : phoneNormalize m with _ | ⟨c, t⟩
      · rw [hn] at hg
        exact absurd hg.2 (by simp)
      · rw [hn] at hg
        have hc := hg.2
        simp only [Bool.or_eq_true, decide_eq_true_eq] at hc
        rcases hc with ((rfl | rfl) | rfl) | rfl
        · exact Or.inl rfl
        · exact Or.inr (Or.inl rfl)
        · exact Or.inr (Or.inr (Or.inl rfl))
        · exact Or.inr (Or.inr (Or.inr rfl))
  · exact Or.inl hp

/-- Folding `phoneKeep` over phone-character matches only produces
10-digit 6-9 values (beyond the accumulator). -/
theorem foldl_phoneKeep_sound : ∀ (ms : List (List Char)) (acc : List String),
    (∀ m ∈ ms, m.all phoneChar = true) → (∀ q ∈ acc, phoneShape q) →
    ∀ p ∈ ms.foldl phoneKeep acc, phoneShape p := by
  intro ms
  induction ms with
  | nil => intro acc _ hacc p hp; exact hacc p hp
  | cons m ms ih =>
    intro acc hms hacc p hp
    refine ih (phoneKeep acc m) (fun x hx => hms x (List.mem_cons_of_mem _ hx))
      ?_ p hp
    intro q hq
    rcases phoneKeep_sound acc m q (hms m (List.mem_cons_self _ _)) hq with h | h
    · exact hacc q h
    · exact h

/-- When the first character is not `+`, the first phone alternative
reduces to its `[6-9]\d{9}` core (the country-code group cannot
match). -/
theorem phoneBranch1_not_plus (c : Char) (rest : List Char) (hc : c ≠ '+') :
    phoneBranch1 (c :: rest) = phoneCore (c :: rest) := by
  unfold phoneBranch1
  split
  · rename_i heq
    rw [List.cons.injEq] at heq
    exact absurd heq.1 hc
  · rfl

/-- Running `phoneScan` on a text that is exactly one plain 10-digit number
starting 6-9 returns exactly that match. -/
theorem phoneScan_single (c : Char) (rest : List Char)
    (hc : (c = '6' || c = '7' || c = '8' || c = '9') = true)
    (hrest : rest.all Char.isDigit = true) (hlen : rest.length = 9) :
    phoneScan ((c :: rest).length + 1) none (c :: rest) = [c :: rest] := by
  have hcp : c ≠ '+' := by
    simp only [Bool.or_eq_true, decide_eq_true_eq] at hc
    rcases hc with ((rfl | rfl) | rfl) | rfl <;> decide
  have hdg : digitsN 9 rest = some (rest, []) := by
    rw [← hlen]
    exact digitsN_full rest hrest
  have hcore : phoneCore (c :: rest) = some (c :: rest, []) := by
    simp only [phoneCore, hc, if_true, hdg]
  simp only [List.length_cons, phoneScan, phoneBranch1_not_plus c rest hcp, hcore]

/-- A text that is exactly one plain 10-digit number starting 6-9 whose
digits do not begin with "91" yields exactly that number. -/
theorem phone_plain_number_extracted (c : Char) (rest : List Char)
    (hc : (c = '6' || c = '7' || c = '8' || c = '9') = true)
    (hrest : rest.all Char.isDigit = true) (hlen : rest.length = 9)
    (h91 : prefixAt "91".toList (c :: rest) = false) :
    extract_phone_numbers (String.mk (c :: rest)) = [String.mk (c :: rest)] := by
  unfold extract_phone_numbers
  rw [show (String.mk (c :: rest)).toList = c :: rest from rfl]
  rw [phoneScan_single c rest hc hrest hlen]
  simp only [List.foldl_cons, List.foldl_nil]
  have hall : (c :: rest).all Char.isDigit = true := by
    simp only [List.all_cons, Bool.and_eq_true]
    exact ⟨sixToNine_isDigit hc, hrest⟩
  have hfil : (c :: rest).filter (fun a => !(pyIsSpace a || a = '-' || a = '+')) =
      c :: rest := by
    rw [List.filter_eq_self]
    intro a ha
    rw [Bool.not_eq_true']
    exact digit_not_stripped ((List.all_eq_true.1 hall) a ha)
  have hnorm : phoneNormalize (c :: rest) = c :: rest := by
    unfold phoneNormalize
    rw [hfil, h91]
    simp
  unfold phoneKeep
  rw [hnorm]
  simp only [List.length_cons, hlen, hc, Bool.and_true]
  norm_num [setAdd]

/-- Lookup after dict assignment. -/
theorem storeGet_storeSet : ∀ (store : Store) (k sid : String) (v : SessionState),
    storeGet (storeSet store k v) sid =
      (if sid = k then some v else storeGet store sid) := by
  intro store k sid v
  induction store with
  | nil =>
    by_cases hsk : sid = k
    · subst hsk
      simp [storeSet, storeGet]
    · have hks : ¬ (k = sid) := fun hh => hsk hh.symm
      simp [storeSet, storeGet, hsk, hks]
  | cons kv rest ih =>
    obtain ⟨a, b⟩ := kv
    simp only [storeSet]
    by_cases hak : a = k
    · rw [if_pos hak]
      subst hak
      simp only [storeGet]
      by_cases hsk : sid = a
      · subst hsk
        simp
      · have h1 : ¬ (a = sid) := fun hh => hsk hh.symm
        simp [h1, hsk]
    · rw [if_neg hak]
      simp only [storeGet]
      by_cases has : a = sid
      · have hsk : ¬ (sid = k) := fun hh => hak (has.trans hh)
        simp [has, hsk]
      · simp only [if_neg has]
        rw [ih]

/-- Session flags after dict assignment. -/
theorem sessionFlags_storeSet (store : Store) (sid2 sid : String)
    (s2 : SessionState) :
    sessionFlags (storeSet store sid2 s2) sid =
      (if sid = sid2 then (s2.scamDetected, s2.conversationComplete, s2.callbackSent)
       else sessionFlags store sid) := by
  unfold sessionFlags
  rw [storeGet_storeSet]
  by_cases h : sid = sid2 <;> simp [h]

/-- The store component of `get_or_create_session`. -/
theorem get_or_create_fst (store : Store) (sid2 now : String) :
    (get_or_create_session store sid2 now).1 =
      (match storeGet store sid2 with
       | some _ => store
       | none => storeSet store sid2
           { sessionId := sid2, createdAt := now, updatedAt := now }) := by
  unfold get_or_create_session
  cases storeGet store sid2 <;> rfl

/-- Monotonicity of the three flags across one `update_session`-based
store step whose updates do not force a flag to false. -/
theorem update_branch_mono (store : Store) (sid2 now sid : String) (u : Updates)
    (hb1 : u.scamDetected ≠ some false)
    (hb2 : u.conversationComplete ≠ some false)
    (hb3 : u.callbackSent ≠ some false) :
    ((sessionFlags store sid).1 = true →
      (sessionFlags (match update_session store sid2 u now with
        | .ok (st, _) => st
        | .error _ => store) sid).1 = true) ∧
    ((sessionFlags store sid).2.1 = true →
      (sessionFlags (match update_session store sid2 u now with
        | .ok (st, _) => st
        | .error _ => store) sid).2.1 = true) ∧
    ((sessionFlags store sid).2.2 = true →
      (sessionFlags (match update_session store sid2 u now with
        | .ok (st, _) => st
        | .error _ => store) sid).2.2 = true) := by
  unfold update_session
  cases hg : storeGet store sid2 with
  | none => exact ⟨id, id, id⟩
  | some s =>
    simp only [sessionFlags_storeSet]
    by_cases hsk : sid = sid2
    · subst hsk
      simp only [if_pos rfl]
      unfold sessionFlags
      rw [hg]
      simp only [applyUpdates]
      refine ⟨?_, ?_, ?_⟩ <;> intro hf
      · cases hu : u.scamDetected with
        | none => simpa [hu] using hf
        | some b =>
          cases b
          · exact absurd hu hb1
          · simp [hu]
      · cases hu : u.conversationComplete with
        | none => simpa [hu] using hf
        | some b =>
          cases b
          · exact absurd hu hb2
          · simp [hu]
      · cases hu : u.callbackSent with
        | none => simpa [hu] using hf
        | some b =>
          cases b
          · exact absurd hu hb3
          · simp [hu]
    · simp only [if_neg hsk]
      exact ⟨id, id, id⟩

/-- Monotonicity of the three flags across a single store operation that
does not explicitly lower a flag. -/
theorem runOp_flags_mono (store : Store) (op : SMOp) (now sid : String)
    (hb : benignOp op) :
    ((sessionFlags store sid).1 = true →
      (sessionFlags (runOp store op now) sid).1 = true) ∧
    ((sessionFlags store sid).2.1 = true →
      (sessionFlags (runOp store op now) sid).2.1 = true) ∧
    ((sessionFlags store sid).2.2 = true →
      (sessionFlags (runOp store op now) sid).2.2 = true) := by
  cases op with
  | getOrCreate sid2 =>
    simp only [runOp, get_or_create_fst]
    cases hg : storeGet store sid2 with
    | some s => exact ⟨id, id, id⟩
    | none =>
      simp only [sessionFlags_storeSet]
      by_cases hsk : sid = sid2
      · subst hsk
        simp only [if_pos rfl]
        unfold sessionFlags
        rw [hg]
        refine ⟨?_, ?_, ?_⟩ <;> intro hf <;> exact absurd hf (by simp)
      · simp only [if_neg hsk]
        exact ⟨id, id, id⟩
  | update sid2 u =>
    obtain ⟨hb1, hb2, hb3⟩ := hb
    exact update_branch_mono store sid2 now sid u hb1 hb2 hb3
  | markScamDetected sid2 =>
    exact update_branch_mono store sid2 now sid
      { scamDetected := some true, agentActivated := some true }
      (by simp) (by simp) (by simp)
  | markComplete sid2 notes =>
    exact update_branch_mono store sid2 now sid
      { conversationComplete := some true, agentNotes := some notes }
      (by simp) (by simp) (by simp)
  | markCallbackSent sid2 =>
    exact update_branch_mono store sid2 now sid
      { callbackSent := some true } (by simp) (by simp) (by simp)
  | incrementMessageCount sid2 =>
    simp only [runOp]
    unfold increment_message_count
    cases hg : storeGet store sid2 with
    | none => exact ⟨id, id, id⟩
    | some s =>
      simp only [sessionFlags_storeSet]
      by_cases hsk : sid = sid2
      · subst hsk
        simp only [if_pos rfl]
        unfold sessionFlags
        rw [hg]
        exact ⟨id, id, id⟩
      · simp only [if_neg hsk]
        exact ⟨id, id, id⟩

/-! ## Claim theorems -/

/-- Claim C1: `send_callback` enforces its preconditions — whenever
`scamDetected` is false, or `conversationComplete` is false, or
`callbackSent` is true, it returns failure with one of the three
descriptive reasons, makes no delivery attempt and sleeps never; in
particular once `callbackSent` is true every call is a failing no-op, so
no further network delivery can occur for the session. -/
theorem C1_send_callback_preconditions (st : Settings) (session : SessionState)
    (outcomes : Nat → AttemptOutcome)
    (h : session.scamDetected = false ∨ session.conversationComplete = false ∨
      session.callbackSent = true) :
    (send_callback st session outcomes).success = false ∧
    (send_callback st session outcomes).attemptsMade = 0 ∧
    (send_callback st session outcomes).sleeps = [] ∧
    ((send_callback st session outcomes).error =
        some "Scam not detected, skipping callback" ∨
      (send_callback st session outcomes).error =
        some "Conversation not complete, skipping callback" ∨
      (send_callback st session outcomes).error =
        some "Callback already sent for this session") := by
  cases hs : session.scamDetected <;>
    cases hc : session.conversationComplete <;>
      cases hb : session.callbackSent <;>
        simp_all [send_callback]

/-- Witness for C1 at a concrete session whose callback was already
sent: the call fails with the already-sent reason and no attempts. -/
theorem C1_send_callback_preconditions_witness :
    (send_callback defaultSettings
        { sessionId := "s", scamDetected := true, conversationComplete := true,
          callbackSent := true } (fun _ => .status 200 "ok")).success = false ∧
    (send_callback defaultSettings
        { sessionId := "s", scamDetected := true, conversationComplete := true,
          callbackSent := true } (fun _ => .status 200 "ok")).attemptsMade = 0 ∧
    (send_callback defaultSettings
        { sessionId := "s", scamDetected := true, conversationComplete := true,
          callbackSent := true } (fun _ => .status 200 "ok")).sleeps = [] ∧
    ((send_callback defaultSettings
        { sessionId := "s", scamDetected := true, conversationComplete := true,
          callbackSent := true } (fun _ => .status 200 "ok")).error =
        some "Scam not detected, skipping callback" ∨
      (send_callback defaultSettings
        { sessionId := "s", scamDetected := true, conversationComplete := true,
          callbackSent := true } (fun _ => .status 200 "ok")).error =
        some "Conversation not complete, skipping callback" ∨
      (send_callback defaultSettings
        { sessionId := "s", scamDetected := true, conversationComplete := true,
          callbackSent := true } (fun _ => .status 200 "ok")).error =
        some "Callback already sent for this session") :=
  C1_send_callback_preconditions defaultSettings
    { sessionId := "s", scamDetected := true, conversationComplete := true,
      callbackSent := true } (fun _ => .status 200 "ok")
    (Or.inr (Or.inr rfl))

/-- Claim C9: for the message "Your account will be BLOCKED immediately,
verify KYC now" the heuristic score is at least 3 (it is 10: keywords
blocked, verify, kyc, account, immediately; the urgency pattern
"immediately"; and the threat+urgency combo), and `detect` under the
default threshold returns scam for every external classifier result. -/
theorem C9_blocked_immediately_scam :
    3 ≤ (calculate_heuristic_score
        "Your account will be BLOCKED immediately, verify KYC now").1 ∧
    ∀ llm : LlmResult,
      (detect defaultSettings
        "Your account will be BLOCKED immediately, verify KYC now" llm).isScam
        = true := by
  constructor
  · have h : (calculate_heuristic_score
        "Your account will be BLOCKED immediately, verify KYC now").1 = 10 := by
      rfl
    omega
  · intro llm
    cases llm <;> rfl

/-- Claim C10: with a sessionId for which no session exists,
`increment_message_count` returns `None` without raising and without
creating the session, while `update_session` and the three convenience
operations built on it raise a not-found error. -/
theorem C10_missing_session_behavior (store : Store) (sid now notes : String)
    (u : Updates) (h : storeGet store sid = none) :
    increment_message_count store sid now = (store, none) ∧
    update_session store sid u now = .error ("Session " ++ sid ++ " not found") ∧
    mark_scam_detected store sid now = .error ("Session " ++ sid ++ " not found") ∧
    mark_complete store sid notes now = .error ("Session " ++ sid ++ " not found") ∧
    mark_callback_sent store sid now = .error ("Session " ++ sid ++ " not found") := by
  simp [increment_message_count, update_session, mark_scam_detected,
    mark_complete, mark_callback_sent, h]

/-- Counterexample to claim C2: for the message "blocked verify kyc"
(heuristic score 3) under the default threshold 3 with an UNCERTAIN
external result, the first applicable rule in the precedence order is
the threshold rule, whose justification is
"Heuristic score 3 >= threshold (3)" — but `detect` returns the
moderate-heuristics justification, because the later rule overwrites the
reason.  The claim's "the returned reason is the justification of the
first applicable rule" is therefore false. -/
theorem C2_counterexample_reason_overwritten :
    (calculate_heuristic_score "blocked verify kyc").1 = 3 ∧
    defaultSettings.HEURISTIC_THRESHOLD = 3 ∧
    (detect defaultSettings "blocked verify kyc" .UNCERTAIN).isScam = true ∧
    heuristicReason 3 3 = "Heuristic score 3 >= threshold (3)" ∧
    (detect defaultSettings "blocked verify kyc" .UNCERTAIN).reason =
      "Moderate heuristics (3) + LLM uncertain" ∧
    (detect defaultSettings "blocked verify kyc" .UNCERTAIN).reason ≠
      "Heuristic score 3 >= threshold (3)" :=
  ⟨rfl, rfl, rfl, rfl, rfl, by decide⟩

/-- Claim C2 as amended: `isScam` is true exactly when the heuristic
score reaches the threshold, or the external result is SCAM, or the
score is at least 2 with an UNCERTAIN external result; the returned
reason is the justification of the LAST applicable rule in that order
(the SCAM rule prepending itself to the threshold justification when
both apply), as captured by `reasonAmended`. -/
theorem C2_detect_decision_and_reason (st : Settings) (message : String)
    (llm : LlmResult) :
    ((detect st message llm).isScam = true ↔
      (st.HEURISTIC_THRESHOLD ≤ (calculate_heuristic_score message).1 ∨
        llm = .SCAM ∨
        (2 ≤ (calculate_heuristic_score message).1 ∧ llm = .UNCERTAIN))) ∧
    (detect st message llm).reason = reasonAmended st message llm := by
  cases llm <;>
    (unfold detect reasonAmended
     simp only [ge_iff_le]
     split_ifs <;> simp_all [heuristicReason_ne_empty])

set_option maxRecDepth 8192 in
/-- Counterexample to claim C3: a 2xx-class response with status 204
does NOT count as a success — the source accepts only 200, 201 and 202
(`status_code in [200, 201, 202]`), so with 204 on every attempt the
dispatcher fails after 3 attempts. -/
theorem C3_counterexample_status_204 :
    (200 ≤ 204 ∧ 204 ≤ 299) ∧
    attemptSucceeded (.status 204 "") = false ∧
    send_callback defaultSettings
      { sessionId := "s", scamDetected := true, conversationComplete := true }
      (fun _ => .status 204 "") =
      { success := false, error := some "Failed after 3 attempts: HTTP 204: ",
        attemptsMade := 3, sleeps := [1, 2] } :=
  ⟨by decide, rfl, rfl⟩

/-- Claim C3 as amended: when the preconditions hold, a delivery attempt
counts as a success exactly when the endpoint responds with status 200,
201 or 202 (not every 2xx status); any other status, timeout or
connection failure is a failed attempt that is retried unless it was the
last — so the call succeeds iff one of the three attempts has a
successful outcome, and the number of attempts made is the index of the
first successful one (3 when none succeeds). -/
theorem C3_attempt_success_criterion (st : Settings) (session : SessionState)
    (outcomes : Nat → AttemptOutcome) (h1 : session.scamDetected = true)
    (h2 : session.conversationComplete = true)
    (h3 : session.callbackSent = false) :
    ((send_callback st session outcomes).success = true ↔
      (attemptSucceeded (outcomes 1) = true ∨ attemptSucceeded (outcomes 2) = true ∨
        attemptSucceeded (outcomes 3) = true)) ∧
    (send_callback st session outcomes).attemptsMade =
      (if attemptSucceeded (outcomes 1) = true then 1
       else if attemptSucceeded (outcomes 2) = true then 2 else 3) := by
  cases ho1 : attemptError st.CALLBACK_TIMEOUT_SECONDS (outcomes 1) with
  | none =>
    have hs1 : attemptSucceeded (outcomes 1) = true :=
      (attemptError_eq_none_iff _ _).1 ho1
    simp [send_callback, h1, h2, h3, sendLoop, ho1, hs1]
  | some e1 =>
    have hs1 : attemptSucceeded (outcomes 1) = false := by
      cases hb : attemptSucceeded (outcomes 1)
      · rfl
      · rw [← attemptError_eq_none_iff st.CALLBACK_TIMEOUT_SECONDS] at hb
        rw [hb] at ho1
        cases ho1
    cases ho2 : attemptError st.CALLBACK_TIMEOUT_SECONDS (outcomes 2) with
    | none =>
      have hs2 : attemptSucceeded (outcomes 2) = true :=
        (attemptError_eq_none_iff _ _).1 ho2
      simp [send_callback, h1, h2, h3, sendLoop, ho1, ho2, hs1, hs2]
    | some e2 =>
      have hs2 : attemptSucceeded (outcomes 2) = false := by
        cases hb : attemptSucceeded (outcomes 2)
        · rfl
        · rw [← attemptError_eq_none_iff st.CALLBACK_TIMEOUT_SECONDS] at hb
          rw [hb] at ho2
          cases ho2
      cases ho3 : attemptError st.CALLBACK_TIMEOUT_SECONDS (outcomes 3) with
      | none =>
        have hs3 : attemptSucceeded (outcomes 3) = true :=
          (attemptError_eq_none_iff _ _).1 ho3
        simp [send_callback, h1, h2, h3, sendLoop, ho1, ho2, ho3, hs1, hs2, hs3]
      | some e3 =>
        have hs3 : attemptSucceeded (outcomes 3) = false := by
          cases hb : attemptSucceeded (outcomes 3)
          · rfl
          · rw [← attemptError_eq_none_iff st.CALLBACK_TIMEOUT_SECONDS] at hb
            rw [hb] at ho3
            cases ho3
        simp [send_callback, h1, h2, h3, sendLoop, ho1, ho2, ho3, hs1, hs2, hs3]

/-- Witness for C3: first attempt times out, second attempt returns
201 — the call succeeds with two attempts made. -/
theorem C3_attempt_success_criterion_witness :
    ((send_callback defaultSettings
        { sessionId := "s", scamDetected := true, conversationComplete := true }
        (fun k => if k = 2 then .status 201 "created" else .timeout)).success = true ↔
      (attemptSucceeded ((fun k => if k = 2 then
          AttemptOutcome.status 201 "created" else .timeout) 1) = true ∨
        attemptSucceeded ((fun k => if k = 2 then
          AttemptOutcome.status 201 "created" else .timeout) 2) = true ∨
        attemptSucceeded ((fun k => if k = 2 then
          AttemptOutcome.status 201 "created" else .timeout) 3) = true)) ∧
    (send_callback defaultSettings
        { sessionId := "s", scamDetected := true, conversationComplete := true }
        (fun k => if k = 2 then .status 201 "created" else .timeout)).attemptsMade =
      (if attemptSucceeded ((fun k => if k = 2 then
          AttemptOutcome.status 201 "created" else .timeout) 1) = true then 1
       else if attemptSucceeded ((fun k => if k = 2 then
          AttemptOutcome.status 201 "created" else .timeout) 2) = true then 2
       else 3) :=
  C3_attempt_success_criterion defaultSettings
    { sessionId := "s", scamDetected := true, conversationComplete := true }
    (fun k => if k = 2 then .status 201 "created" else .timeout) rfl rfl rfl

/-- Claim C4: with the preconditions met and every attempt failing,
`send_callback` makes exactly 3 attempts, sleeping the exponential
backoff 2^(attempt-1) — 1s then 2s — between consecutive attempts (the
4s value of the schedule is never slept since no attempt follows the
third), returns failure carrying the last attempt's error, and the
session's `callbackSent` flag stays false (the dispatcher never writes
it; the orchestrator sets it only after a success). -/
theorem C4_exhausted_retries (st : Settings) (session : SessionState)
    (outcomes : Nat → AttemptOutcome) (h1 : session.scamDetected = true)
    (h2 : session.conversationComplete = true)
    (h3 : session.callbackSent = false)
    (hfail : ∀ k, attemptSucceeded (outcomes k) = false) :
    ∃ e, attemptError st.CALLBACK_TIMEOUT_SECONDS (outcomes 3) = some e ∧
      send_callback st session outcomes =
        { success := false, error := some ("Failed after 3 attempts: " ++ e),
          attemptsMade := 3, sleeps := [1, 2] } ∧
      session.callbackSent = false := by
  obtain ⟨e1, he1⟩ :=
    attemptError_eq_some_of_fail st.CALLBACK_TIMEOUT_SECONDS (outcomes 1) (hfail 1)
  obtain ⟨e2, he2⟩ :=
    attemptError_eq_some_of_fail st.CALLBACK_TIMEOUT_SECONDS (outcomes 2) (hfail 2)
  obtain ⟨e3, he3⟩ :=
    attemptError_eq_some_of_fail st.CALLBACK_TIMEOUT_SECONDS (outcomes 3) (hfail 3)
  refine ⟨e3, he3, ?_, h3⟩
  have hmsg : "Failed after " ++ toString (3 : Nat) ++ " attempts: " ++ e3 =
      "Failed after 3 attempts: " ++ e3 := rfl
  simp [send_callback, h1, h2, h3, sendLoop, he1, he2, he3, hmsg]

set_option maxRecDepth 8192 in
/-- Witness for C4: HTTP 500 on every attempt — failure after 3
attempts with sleeps of 1s and 2s, carrying the last HTTP 500 error. -/
theorem C4_exhausted_retries_witness :
    send_callback defaultSettings
      { sessionId := "s", scamDetected := true, conversationComplete := true }
      (fun _ => .status 500 "Internal Server Error") =
      { success := false,
        error := some "Failed after 3 attempts: HTTP 500: Internal Server Error",
        attemptsMade := 3, sleeps := [1, 2] } := by
  obtain ⟨e, he, hres, -⟩ := C4_exhausted_retries defaultSettings
    { sessionId := "s", scamDetected := true, conversationComplete := true }
    (fun _ => .status 500 "Internal Server Error") rfl rfl rfl (fun _ => rfl)
  have h' : (some "HTTP 500: Internal Server Error" : Option String) = some e := he
  cases Option.some.inj h'
  exact hres

/-- Claim C6: `should_complete` returns true exactly when the session
has at least one UPI id, or at least one phishing link, or at least one
phone number together with a suspicious keyword from the urgency subset
{urgent, immediately, asap, now, expire, blocked}, or `totalMessages`
has reached the configured budget `MAX_MESSAGES_BEFORE_COMPLETE`
(default 15). -/
theorem C6_should_complete_iff (st : Settings) (session : SessionState) :
    ((should_complete st session).1 = true ↔
      (1 ≤ session.intelligence.upiIds.length ∨
        1 ≤ session.intelligence.phishingLinks.length ∨
        (1 ≤ session.intelligence.phoneNumbers.length ∧
          ∃ k ∈ session.intelligence.suspiciousKeywords, k ∈ urgency_keywords) ∨
        st.MAX_MESSAGES_BEFORE_COMPLETE ≤ session.totalMessages)) ∧
    defaultSettings.MAX_MESSAGES_BEFORE_COMPLETE = 15 := by
  refine ⟨?_, rfl⟩
  unfold should_complete
  simp only [ge_iff_le, Bool.and_eq_true, decide_eq_true_eq, List.any_eq_true]
  split_ifs <;> simp_all

/-- Claim C7: extraction is idempotent — re-running `extract_all` on the
same text adds nothing, comparing the five intelligence fields as
sets. -/
theorem C7_extract_all_idempotent (T : String) (I : Intelligence) :
    intelEqSets (extract_all T (extract_all T I)) (extract_all T I) := by
  unfold extract_all intelEqSets eqAsSets
  refine ⟨?_, ?_, ?_, ?_, ?_⟩ <;>
    (intro x
     simp only [mem_setUnion]
     tauto)

/-- Counterexample to claim C5: the text "9123456789" contains (is) a
digits-only 10-digit string beginning with 9, yet `extract_phone_numbers`
returns the empty set for it: the country-code strip removes the leading
"91" of the already 10-digit match, leaving 8 digits that fail
validation.  The claim's "a valid 10-digit number is recognized whether
or not it is written with the country code" is therefore false. -/
theorem C5_counterexample_91_number :
    phoneShape "9123456789" ∧
    subMatch "9123456789".toList "9123456789".toList = true ∧
    extract_phone_numbers "9123456789" = [] :=
  ⟨⟨rfl, rfl, Or.inr (Or.inr (Or.inr rfl))⟩, rfl, rfl⟩

/-- Claim C5 as amended: every value returned by
`extract_phone_numbers` is a digits-only 10-digit string beginning with
6-9; and a text that is exactly such a number is extracted verbatim
provided its digits do not begin with "91" — numbers beginning "91" are
dropped by the country-code strip (the counterexample). -/
theorem C5_phone_extraction_shape :
    (∀ (text p : String), p ∈ extract_phone_numbers text → phoneShape p) ∧
    (∀ (c : Char) (rest : List Char),
      (c = '6' || c = '7' || c = '8' || c = '9') = true →
      rest.all Char.isDigit = true → rest.length = 9 →
      prefixAt "91".toList (c :: rest) = false →
      extract_phone_numbers (String.mk (c :: rest)) = [String.mk (c :: rest)]) := by
  constructor
  · intro text p hp
    unfold extract_phone_numbers at hp
    refine foldl_phoneKeep_sound _ []
      (fun m hm => phoneScan_chars _ _ _ _ hm) ?_ p hp
    intro q hq
    exact absurd hq (List.not_mem_nil q)
  · exact phone_plain_number_extracted

/-- Witness for C5: "9876543210" standing alone is extracted and has the
10-digit 6-9 shape. -/
theorem C5_phone_extraction_shape_witness :
    phoneShape "9876543210" ∧
    extract_phone_numbers "9876543210" = ["9876543210"] := by
  have h2 : extract_phone_numbers "9876543210" = ["9876543210"] :=
    C5_phone_extraction_shape.2 '9' "876543210".toList (by decide) (by decide)
      (by decide) (by decide)
  refine ⟨C5_phone_extraction_shape.1 "9876543210" "9876543210" ?_, h2⟩
  rw [h2]
  exact List.mem_cons_self _ _

/-- Counterexample to claim C8: `update_session` applies arbitrary
keyword updates with no monotonicity guard, so the operation sequence
get_or_create_session("s"); mark_scam_detected("s");
update_session("s", scamDetected=False) transitions `scamDetected` from
true back to false — the claim is false when `update_session` is among
the allowed operations. -/
theorem C8_counterexample_update_lowers_flag :
    (sessionFlags (runOps [] [(SMOp.getOrCreate "s", "t0"),
        (SMOp.markScamDetected "s", "t1")]) "s").1 = true ∧
    (sessionFlags (runOps [] [(SMOp.getOrCreate "s", "t0"),
        (SMOp.markScamDetected "s", "t1"),
        (SMOp.update "s" { scamDetected := some false }, "t2")]) "s").1 = false :=
  ⟨rfl, rfl⟩

/-- Claim C8 as amended: for every sequence of SessionManager operations
in which no `update_session` call explicitly sets `scamDetected`,
`conversationComplete` or `callbackSent` to false (the convenience
operations never do), each of the three flags never transitions from
true to false. -/
theorem C8_flags_monotonic (ops : List (SMOp × String)) (store : Store)
    (sid : String) (hb : ∀ p ∈ ops, benignOp p.1) :
    ((sessionFlags store sid).1 = true →
      (sessionFlags (runOps store ops) sid).1 = true) ∧
    ((sessionFlags store sid).2.1 = true →
      (sessionFlags (runOps store ops) sid).2.1 = true) ∧
    ((sessionFlags store sid).2.2 = true →
      (sessionFlags (runOps store ops) sid).2.2 = true) := by
  induction ops generalizing store with
  | nil => exact ⟨id, id, id⟩
  | cons p rest ih =>
    obtain ⟨op, now⟩ := p
    have h1 := runOp_flags_mono store op now sid (hb (op, now) (List.mem_cons_self _ _))
    have h2 := ih (runOp store op now) (fun q hq => hb q (List.mem_cons_of_mem _ hq))
    exact ⟨fun h => h2.1 (h1.1 h), fun h => h2.2.1 (h1.2.1 h),
      fun h => h2.2.2 (h1.2.2 h)⟩

/-- Witness for C8: a create/detect/increment/complete sequence keeps
all three flags monotone from the empty store. -/
theorem C8_flags_monotonic_witness :
    ((sessionFlags [] "s").1 = true →
      (sessionFlags (runOps [] [(SMOp.getOrCreate "s", "t0"),
        (SMOp.markScamDetected "s", "t1"),
        (SMOp.incrementMessageCount "s", "t2"),
        (SMOp.markComplete "s" "done", "t3")]) "s").1 = true) ∧
    ((sessionFlags [] "s").2.1 = true →
      (sessionFlags (runOps [] [(SMOp.getOrCreate "s", "t0"),
        (SMOp.markScamDetected "s", "t1"),
        (SMOp.incrementMessageCount "s", "t2"),
        (SMOp.markComplete "s" "done", "t3")]) "s").2.1 = true) ∧
    ((sessionFlags [] "s").2.2 = true →
      (sessionFlags (runOps [] [(SMOp.getOrCreate "s", "t0"),
        (SMOp.markScamDetected "s", "t1"),
        (SMOp.incrementMessageCount "s", "t2"),
        (SMOp.markComplete "s" "done", "t3")]) "s").2.2 = true) :=
  C8_flags_monotonic [(SMOp.getOrCreate "s", "t0"),
    (SMOp.markScamDetected "s", "t1"),
    (SMOp.incrementMessageCount "s", "t2"),
    (SMOp.markComplete "s" "done", "t3")] [] "s"
    (by
      intro p hp
      fin_cases hp <;> trivial)

/-- Witness for C10: the empty store has no session "s". -/
theorem C10_missing_session_behavior_witness :
    increment_message_count [] "s" "t0" = ([], none) ∧
    update_session [] "s" { scamDetected := some true } "t0" =
      .error ("Session " ++ "s" ++ " not found") ∧
    mark_scam_detected [] "s" "t0" = .error ("Session " ++ "s" ++ " not found") ∧
    mark_complete [] "s" "notes" "t0" = .error ("Session " ++ "s" ++ " not found") ∧
    mark_callback_sent [] "s" "t0" = .error ("Session " ++ "s" ++ " not found") :=
  C10_missing_session_behavior [] "s" "t0" "notes"
    { scamDetected := some true } rfl

end Honeypot
